import Mathlib

/-!
Verification development for the autograd teaching notebook
(src/autograd.ipynb).  The notebook exercises a reverse-mode
automatic-differentiation engine that lives in an external library;
following the specification (sections 3 and 4), that engine is modelled
here as a shallow embedding: value nodes in an arena addressed by index,
operation records, and a backward pass in reverse creation order (a
reverse topological order, since every operation only consumes
previously created nodes).  Floating-point payloads are idealised as
elements of a field; the graphs the notebook builds are reproduced
cell by cell.
-/

namespace Autograd

/-- Modelled from the spec: a tensor payload is a scalar, a vector, or a
matrix of numbers (floats idealised as elements of a field). -/
inductive Tensor (R : Type) where
  | scalar : R → Tensor R
  | vector : List R → Tensor R
  | matrix : List (List R) → Tensor R
deriving DecidableEq, Repr

namespace Tensor

/-- Elementwise map over a tensor payload. -/
def map {R : Type} (f : R → R) : Tensor R → Tensor R
  | scalar x => scalar (f x)
  | vector xs => vector (xs.map f)
  | matrix xss => matrix (xss.map (fun row => row.map f))

/-- Elementwise combination of two payloads, broadcasting a scalar
against a vector or matrix (the only broadcasts the notebook uses).
Shape combinations the notebook never produces fall through to the
first argument. -/
def zipWith {R : Type} (f : R → R → R) : Tensor R → Tensor R → Tensor R
  | scalar a, scalar b => scalar (f a b)
  | scalar a, vector bs => vector (bs.map (fun b => f a b))
  | scalar a, matrix bss => matrix (bss.map (fun row => row.map (fun b => f a b)))
  | vector as, scalar b => vector (as.map (fun a => f a b))
  | matrix ass, scalar b => matrix (ass.map (fun row => row.map (fun a => f a b)))
  | vector as, vector bs => vector (List.zipWith f as bs)
  | matrix ass, matrix bss => matrix (List.zipWith (List.zipWith f) ass bss)
  | t, _ => t

/-- Sum of all entries of a payload. -/
def sumT {R : Type} [Field R] : Tensor R → R
  | scalar x => x
  | vector xs => xs.sum
  | matrix xss => (xss.map List.sum).sum

/-- Number of entries of a payload. -/
def count {R : Type} : Tensor R → ℕ
  | scalar _ => 1
  | vector xs => xs.length
  | matrix xss => (xss.map List.length).sum

end Tensor

/-- Value of a scalar payload (0 on non-scalars, which backward never
feeds here). -/
def scalarOf {R : Type} [Field R] : Tensor R → R
  | .scalar x => x
  | _ => 0

/-- Whether a payload is a single scalar. -/
def isScalarT {R : Type} : Tensor R → Bool
  | .scalar _ => true
  | _ => false

/-- Payload of ones with the shape of the given payload (the default
seed gradient of a backward call). -/
def onesLike {R : Type} [Field R] (t : Tensor R) : Tensor R :=
  t.map (fun _ => 1)

/-- Elementwise sum of two gradient payloads (accumulation). -/
def addT {R : Type} [Field R] (a b : Tensor R) : Tensor R :=
  Tensor.zipWith (· + ·) a b

/-- Modelled from the spec: the binary elementwise operations the
notebook applies to tensor pairs. -/
inductive BinOp where
  | add | sub | mul | div
deriving DecidableEq, Repr

/-- Modelled from the spec: the unary elementwise and reduction
operations the notebook applies (power with a natural exponent,
trigonometric maps, sum, mean, and the pass-through clone). -/
inductive UnOp where
  | pow : ℕ → UnOp
  | sin | cos | sum | mean | clone
deriving DecidableEq, Repr

/-- Modelled from the spec: an operation record stores the operation
and the arena indices of its inputs. -/
inductive OpRecord where
  | bin : BinOp → ℕ → ℕ → OpRecord
  | un : UnOp → ℕ → OpRecord
deriving DecidableEq, Repr

/-- Modelled from the spec: a value node wraps a payload, the
gradient-tracking flag, and an optional back-reference to the
operation record that produced it (absent for leaves). -/
structure Node (R : Type) where
  payload : Tensor R
  requiresGrad : Bool
  op : Option OpRecord
deriving DecidableEq, Repr

/-- The computation graph as an arena of nodes; an index into the list
identifies a node, and every operation record only references earlier
indices, so index order is a topological order. -/
abbrev Graph (R : Type) := List (Node R)

/-- Scalar transcendental functions of the payload type (the field
structure supplies the arithmetic ones). -/
structure ScalarOps (R : Type) where
  sin : R → R
  cos : R → R

/-- Placeholder trigonometry for rational-valued graphs; the graphs
analysed over the rationals contain no trigonometric node, so these
values are never consulted. -/
def ratOps : ScalarOps ℚ := ⟨fun _ => 0, fun _ => 0⟩

/-- The real-valued operations used by the triangle cells. -/
noncomputable def realScalarOps : ScalarOps ℝ := ⟨Real.sin, Real.cos⟩

/-- Out-of-range lookups yield an inert untracked node. -/
def defaultNode {R : Type} [Field R] : Node R :=
  ⟨.scalar 0, false, none⟩

/-- Node stored at an arena index. -/
def nodeAt {R : Type} [Field R] (g : Graph R) (i : ℕ) : Node R :=
  g.getD i defaultNode

/-- Modelled from the spec: makeLeaf appends a fresh leaf node with the
given payload and tracking flag and no operation record. -/
def makeLeaf {R : Type} [Field R] (g : Graph R) (p : Tensor R) (track : Bool) : Graph R :=
  g ++ [⟨p, track, none⟩]

/-- Forward numeric computation of a binary operation. -/
def binForward {R : Type} [Field R] (op : BinOp) (a b : Tensor R) : Tensor R :=
  match op with
  | .add => Tensor.zipWith (· + ·) a b
  | .sub => Tensor.zipWith (· - ·) a b
  | .mul => Tensor.zipWith (· * ·) a b
  | .div => Tensor.zipWith (· / ·) a b

/-- Forward numeric computation of a unary operation. -/
def unForward {R : Type} [Field R] (S : ScalarOps R) (op : UnOp) (a : Tensor R) : Tensor R :=
  match op with
  | .pow n => a.map (fun x => x ^ n)
  | .sin => a.map S.sin
  | .cos => a.map S.cos
  | .sum => .scalar a.sumT
  | .mean => .scalar (a.sumT / (a.count : R))
  | .clone => a

/-- Modelled from the spec: applying a binary operation appends the
output node; its tracking flag is the logical OR of the input flags and
an operation record is allocated only when some input is tracked. -/
def applyBin {R : Type} [Field R] (g : Graph R) (op : BinOp) (i j : ℕ) : Graph R :=
  let rg := (nodeAt g i).requiresGrad || (nodeAt g j).requiresGrad
  g ++ [⟨binForward op (nodeAt g i).payload (nodeAt g j).payload,
         rg,
         if rg then some (.bin op i j) else none⟩]

/-- Modelled from the spec: applying a unary operation appends the
output node; the tracking flag is inherited from the input and an
operation record is allocated only when the input is tracked. -/
def applyUn {R : Type} [Field R] (S : ScalarOps R) (g : Graph R) (op : UnOp) (i : ℕ) : Graph R :=
  let rg := (nodeAt g i).requiresGrad
  g ++ [⟨unForward S op (nodeAt g i).payload,
         rg,
         if rg then some (.un op i) else none⟩]

/-- Modelled from the spec: detach appends a fresh leaf with the same
payload, tracking flag forced false and no operation record. -/
def detach {R : Type} [Field R] (g : Graph R) (i : ℕ) : Graph R :=
  g ++ [⟨(nodeAt g i).payload, false, none⟩]

/-- Modelled from the spec: the in-place requires-grad setter flips the
tracking flag of an existing node. -/
def requiresGrad_ {R : Type} [Field R] (g : Graph R) (i : ℕ) (b : Bool) : Graph R :=
  g.set i { nodeAt g i with requiresGrad := b }

/-- Local derivative rule of a binary operation: given the two input
payloads and the upstream gradient, the per-input contributions. -/
def binBackward {R : Type} [Field R] (op : BinOp) (a b g : Tensor R) :
    Tensor R × Tensor R :=
  match op with
  | .add => (g, g)
  | .sub => (g, g.map (fun x => -x))
  | .mul => (Tensor.zipWith (· * ·) g b, Tensor.zipWith (· * ·) g a)
  | .div => (Tensor.zipWith (· / ·) g b,
             (Tensor.zipWith (· / ·) (Tensor.zipWith (· * ·) a g)
               (Tensor.zipWith (· * ·) b b)).map (fun x => -x))

/-- Local derivative rule of a unary operation. -/
def unBackward {R : Type} [Field R] (S : ScalarOps R) (op : UnOp) (a g : Tensor R) :
    Tensor R :=
  match op with
  | .pow n => Tensor.zipWith (· * ·) (a.map (fun x => (n : R) * x ^ (n - 1))) g
  | .sin => Tensor.zipWith (· * ·) (a.map S.cos) g
  | .cos => Tensor.zipWith (· * ·) (a.map (fun x => -(S.sin x))) g
  | .sum => a.map (fun _ => scalarOf g)
  | .mean => a.map (fun _ => scalarOf g / (a.count : R))
  | .clone => g

/-- Accumulated gradients, one optional slot per node; a slot is absent
until backward has propagated a contribution into it. -/
abbrev GradMap (R : Type) := List (Option (Tensor R))

/-- Modelled from the spec: gradient contributions are added into the
accumulator of a tracked input (accumulation, not replacement);
untracked inputs are skipped. -/
def accumInto {R : Type} [Field R] (g : Graph R) (grads : GradMap R) (i : ℕ)
    (c : Tensor R) : GradMap R :=
  if (nodeAt g i).requiresGrad then
    grads.set i (some (match grads.getD i none with
                       | none => c
                       | some old => addT old c))
  else grads

/-- One backward visit: if the node is tracked, has an accumulated
upstream gradient and an operation record, its local derivative rule
runs and each per-input contribution is accumulated. -/
def processNode {R : Type} [Field R] (S : ScalarOps R) (g : Graph R)
    (grads : GradMap R) (k : ℕ) : GradMap R :=
  let nd := nodeAt g k
  if !nd.requiresGrad then grads
  else
    match grads.getD k none with
    | none => grads
    | some up =>
      match nd.op with
      | none => grads
      | some (.bin op i j) =>
        let c := binBackward op (nodeAt g i).payload (nodeAt g j).payload up
        accumInto g (accumInto g grads i c.1) j c.2
      | some (.un op i) =>
        accumInto g grads i (unBackward S op (nodeAt g i).payload up)

/-- Backward visits in decreasing index order, which is a reverse
topological order of the graph, so a node is finalised before its own
gradient is propagated further back. -/
def backLoop {R : Type} [Field R] (S : ScalarOps R) (g : Graph R) :
    ℕ → GradMap R → GradMap R
  | 0, grads => processNode S g grads 0
  | k + 1, grads => backLoop S g k (processNode S g grads (k + 1))

/-- Modelled from the spec: errors a backward call surfaces to the
caller. -/
inductive BackwardError where
  | shapeMismatch | untrackedRoot
deriving DecidableEq, Repr

/-- Modelled from the spec: the backward engine.  It fails on a
non-scalar root without a seed, fails when the root was never flagged
for gradient tracking, and otherwise seeds the root with ones and
sweeps the arena in reverse topological order. -/
def backward {R : Type} [Field R] (S : ScalarOps R) (g : Graph R) (root : ℕ) :
    Except BackwardError (GradMap R) :=
  let nd := nodeAt g root
  if !isScalarT nd.payload then .error .shapeMismatch
  else if !nd.requiresGrad then .error .untrackedRoot
  else
    .ok (backLoop S g root
      ((List.replicate g.length (none : Option (Tensor R))).set root
        (some (onesLike nd.payload))))

/-- Modelled from the spec: the gradient read-out returns the
accumulated slot, absent until backward traversed the node. -/
def gradient {R : Type} (grads : GradMap R) (i : ℕ) : Option (Tensor R) :=
  grads.getD i none

/-- Gradient of node i after a backward pass from the root; absent when
backward fails or never reached the node. -/
def gradAt {R : Type} [Field R] (S : ScalarOps R) (g : Graph R) (root i : ℕ) :
    Option (Tensor R) :=
  match backward S g root with
  | .ok grads => gradient grads i
  | .error _ => none

/-- The node most recently appended to the arena. -/
def lastNode {R : Type} [Field R] (g : Graph R) : Node R :=
  nodeAt g (g.length - 1)

/-! Graphs the notebook builds, cell by cell.  Constants appearing in
the Python expressions become untracked scalar leaves, exactly as the
library wraps them. -/

/-- Cell 3: x = tensor(3., requires_grad=True); y = x ** 2.
Node 0 is x, node 1 is y. -/
def cell3Graph : Graph ℚ :=
  applyUn ratOps (makeLeaf ([] : Graph ℚ) (.scalar 3) true) (.pow 2) 0

/-- Cell 5: x = tensor([3., 4.], requires_grad=True); y = (x ** 2).sum().
Node 0 is x, node 1 is x ** 2, node 2 is y. -/
def cell5Graph : Graph ℚ :=
  let g0 := makeLeaf ([] : Graph ℚ) (.vector [3, 4]) true
  let g1 := applyUn ratOps g0 (.pow 2) 0
  applyUn ratOps g1 .sum 1

/-- The mean variant of cell 5 stated in the spec (section 8):
x = tensor([3., 4.], requires_grad=True); y = (x ** 2).mean(). -/
def meanGraph : Graph ℚ :=
  let g0 := makeLeaf ([] : Graph ℚ) (.vector [3, 4]) true
  let g1 := applyUn ratOps g0 (.pow 2) 0
  applyUn ratOps g1 .mean 1

/-- Cell 9: x = tensor([[1.,2.],[3.,4.]], requires_grad=True);
y = x + 2; z = y * y * 3; out = z.sum().  Node 0 is x, node 1 the
constant 2, node 2 is y, node 3 is y * y (both inputs are node 2: a
diamond), node 4 the constant 3, node 5 is z, node 6 is out. -/
def cell9Graph : Graph ℚ :=
  let g0 := makeLeaf ([] : Graph ℚ) (.matrix [[1, 2], [3, 4]]) true
  let g1 := makeLeaf g0 (.scalar 2) false
  let g2 := applyBin g1 .add 0 1
  let g3 := applyBin g2 .mul 2 2
  let g4 := makeLeaf g3 (.scalar 3) false
  let g5 := applyBin g4 .mul 3 4
  applyUn ratOps g5 .sum 5

/-- Cells 13, 15 and 17: theta = tensor(thetaVal, requires_grad=track);
b = tensor(bVal); c = b / cos(theta); h = c * sin(theta);
a = (h * b) / 2.  Node 0 is theta, node 1 is b, node 2 is cos(theta),
node 3 is c, node 4 is sin(theta), node 5 is h, node 6 is h * b,
node 7 the constant 2, node 8 is a.  Cell 13 and cell 17 take
track = true, cell 15 takes track = false; the notebook uses
thetaVal = pi / 4 and bVal = 4. -/
def triangleGraph {R : Type} [Field R] (S : ScalarOps R) (thetaVal bVal : R)
    (track : Bool) : Graph R :=
  let g0 := makeLeaf ([] : Graph R) (.scalar thetaVal) track
  let g1 := makeLeaf g0 (.scalar bVal) false
  let g2 := applyUn S g1 .cos 0
  let g3 := applyBin g2 .div 1 2
  let g4 := applyUn S g3 .sin 0
  let g5 := applyBin g4 .mul 3 4
  let g6 := applyBin g5 .mul 5 1
  let g7 := makeLeaf g6 (.scalar 2) false
  applyBin g7 .div 6 7

/-- Cell 19: theta = tensor(pi/4., requires_grad=True);
theta_clone = theta.clone().  Node 0 is theta, node 1 the clone. -/
def cell19Graph {R : Type} [Field R] (S : ScalarOps R) (thetaVal : R) : Graph R :=
  applyUn S (makeLeaf ([] : Graph R) (.scalar thetaVal) true) .clone 0

/-- Cell 21: a = tensor(v, requires_grad=True); b = a.clone();
c = b ** 2.  Node 0 is a, node 1 is b, node 2 is c; the notebook takes
v = 4. -/
def cell21Graph {R : Type} [Field R] (S : ScalarOps R) (v : R) : Graph R :=
  let g0 := makeLeaf ([] : Graph R) (.scalar v) true
  let g1 := applyUn S g0 .clone 0
  applyUn S g1 (.pow 2) 1

/-- Cell 23: a = tensor(v, requires_grad=True);
b = a.clone().detach().requires_grad_(True); c = b ** 2.  Node 0 is a,
node 1 the clone, node 2 the detached leaf (which requires_grad_ then
flips to tracked, so b is node 2), node 3 is c; the notebook takes
v = 4. -/
def cell23Graph {R : Type} [Field R] (S : ScalarOps R) (v : R) : Graph R :=
  let g0 := makeLeaf ([] : Graph R) (.scalar v) true
  let g1 := applyUn S g0 .clone 0
  let g2 := detach g1 1
  let g3 := requiresGrad_ g2 2 true
  applyUn S g3 (.pow 2) 2

/-! Helper lemmas. -/

theorem nodeAt_append_length {R : Type} [Field R] (g : Graph R) (nd : Node R) :
    nodeAt (g ++ [nd]) g.length = nd := by
  simp [nodeAt, List.getD_append_right]

theorem lastNode_applyBin {R : Type} [Field R] (g : Graph R) (op : BinOp) (i j : ℕ) :
    (lastNode (applyBin g op i j)).requiresGrad
      = ((nodeAt g i).requiresGrad || (nodeAt g j).requiresGrad) := by
  have h : lastNode (applyBin g op i j)
      = ⟨binForward op (nodeAt g i).payload (nodeAt g j).payload,
         (nodeAt g i).requiresGrad || (nodeAt g j).requiresGrad,
         if (nodeAt g i).requiresGrad || (nodeAt g j).requiresGrad then
           some (.bin op i j) else none⟩ := by
    simpa [lastNode, applyBin] using nodeAt_append_length g _
  rw [h]

theorem lastNode_applyUn {R : Type} [Field R] (S : ScalarOps R) (g : Graph R)
    (op : UnOp) (i : ℕ) :
    (lastNode (applyUn S g op i)).requiresGrad = (nodeAt g i).requiresGrad := by
  have h : lastNode (applyUn S g op i)
      = ⟨unForward S op (nodeAt g i).payload,
         (nodeAt g i).requiresGrad,
         if (nodeAt g i).requiresGrad then some (.un op i) else none⟩ := by
    simpa [lastNode, applyUn] using nodeAt_append_length g _
  rw [h]

/-! Theorems settling the claims about the autograd engine. -/

/-- C1: for the cell 9 computation y = x + 2, z = y * y * 3,
out = z.sum() with leaf x = [[1,2],[3,4]] tracked, backward from out
leaves the gradient of x equal to [[18,24],[30,36]], which is
6 * (x + 2) elementwise, and is the sum of the two equal per-branch
contributions 3 * (x + 2) that arrive at y through the two uses of y in
the multiplication (the diamond). -/
theorem chain_rule_diamond_gradient :
    gradAt ratOps cell9Graph 6 0 = some (.matrix [[18, 24], [30, 36]]) ∧
    gradAt ratOps cell9Graph 6 0
      = some ((nodeAt cell9Graph 0).payload.map (fun x => 6 * (x + 2))) ∧
    gradAt ratOps cell9Graph 6 0
      = some (addT (.matrix [[9, 12], [15, 18]]) (.matrix [[9, 12], [15, 18]])) := by
  have h : gradAt ratOps cell9Graph 6 0
      = some (.matrix [[1*3*(1+2) + 1*3*(1+2), 1*3*(2+2) + 1*3*(2+2)],
                       [1*3*(3+2) + 1*3*(3+2), 1*3*(4+2) + 1*3*(4+2)]]) := rfl
  have hx : (nodeAt cell9Graph 0).payload.map (fun x => 6 * (x + 2))
      = Tensor.matrix [[6 * (1+2), 6 * (2+2)], [6 * (3+2), 6 * (4+2)]] := rfl
  have ha : addT (Tensor.matrix [[(9:ℚ), 12], [15, 18]]) (.matrix [[9, 12], [15, 18]])
      = Tensor.matrix [[9+9, 12+12], [15+15, 18+18]] := rfl
  refine ⟨?_, ?_, ?_⟩
  · rw [h]; norm_num
  · rw [h, hx]; norm_num
  · rw [h, ha]; norm_num

/-- C2: after a backward pass from a scalar root built by power and
reduction operations on a tracked leaf: for scalar a = 3 the gradient
of a ** 2 is 6 (cell 3); for x = [3,4] the gradient of (x ** 2).sum()
is [6,8] (cell 5); and the gradient of (x ** 2).mean() is [3,4]. -/
theorem power_sum_mean_gradients :
    gradAt ratOps cell3Graph 1 0 = some (.scalar 6) ∧
    gradAt ratOps cell5Graph 2 0 = some (.vector [6, 8]) ∧
    gradAt ratOps meanGraph 2 0 = some (.vector [3, 4]) := by
  have h3 : gradAt ratOps cell3Graph 1 0
      = some (.scalar (((2:ℕ):ℚ) * 3 ^ (2-1) * 1)) := rfl
  have h5 : gradAt ratOps cell5Graph 2 0
      = some (.vector [((2:ℕ):ℚ) * 3 ^ (2-1) * 1, ((2:ℕ):ℚ) * 4 ^ (2-1) * 1]) := rfl
  have hm : gradAt ratOps meanGraph 2 0
      = some (.vector [((2:ℕ):ℚ) * 3 ^ (2-1) * (1 / ((2:ℕ):ℚ)),
                       ((2:ℕ):ℚ) * 4 ^ (2-1) * (1 / ((2:ℕ):ℚ))]) := rfl
  refine ⟨?_, ?_, ?_⟩
  · rw [h3]; norm_num
  · rw [h5]; norm_num
  · rw [hm]; norm_num

set_option maxHeartbeats 1000000 in
/-- C3: for every tracked leaf a with payload v and clone b = a.clone(),
after c = b ** 2 and c.backward() the gradient read at the clone is
identical to the gradient the source received, namely 2 * v (so 8 for
the payload 4 of cell 21): the clone is a pass-through. -/
theorem clone_gradient_passthrough (R : Type) [Field R] (S : ScalarOps R) (v : R) :
    gradAt S (cell21Graph S v) 2 1 = gradAt S (cell21Graph S v) 2 0 ∧
    gradAt S (cell21Graph S v) 2 0 = some (.scalar (2 * v)) := by
  refine ⟨rfl, ?_⟩
  have h : gradAt S (cell21Graph S v) 2 0
      = some (.scalar (((2:ℕ):R) * v ^ (2-1) * 1)) := rfl
  rw [h]
  simp only [Option.some.injEq, Tensor.scalar.injEq]
  push_cast
  ring

set_option maxHeartbeats 1000000 in
/-- C4: for every tracked leaf a with payload v, building
b = a.clone().detach().requires_grad_(True) (cell 23), computing
c = b ** 2 and calling c.backward() leaves the gradient of a absent (no
contribution crosses the detach boundary) while b itself receives the
gradient 2 * v (8 for the payload 4 of cell 23). -/
theorem detach_blocks_gradient (R : Type) [Field R] (S : ScalarOps R) (v : R) :
    gradAt S (cell23Graph S v) 3 0 = none ∧
    gradAt S (cell23Graph S v) 3 2 = some (.scalar (2 * v)) := by
  refine ⟨rfl, ?_⟩
  have h : gradAt S (cell23Graph S v) 3 2
      = some (.scalar (((2:ℕ):R) * v ^ (2-1) * 1)) := rfl
  rw [h]
  simp only [Option.some.injEq, Tensor.scalar.injEq]
  push_cast
  ring

/-- C5: the gradient-tracking flag is monotonic downstream.  For every
binary operation the output flag is the logical OR of the input flags,
for every unary operation (clone included) it is inherited from the
input; in the cell 17 chain with theta tracked and b untracked, the
consumers c (node 3), h (node 5) and a (node 8) are all tracked, the
sibling b (node 1) stays untracked, and the clone of the tracked theta
in cell 19 is tracked. -/
theorem requires_grad_propagation :
    (∀ (R : Type) [Field R] (g : Graph R) (op : BinOp) (i j : ℕ),
        (lastNode (applyBin g op i j)).requiresGrad
          = ((nodeAt g i).requiresGrad || (nodeAt g j).requiresGrad)) ∧
    (∀ (R : Type) [Field R] (S : ScalarOps R) (g : Graph R) (op : UnOp) (i : ℕ),
        (lastNode (applyUn S g op i)).requiresGrad = (nodeAt g i).requiresGrad) ∧
    (nodeAt (triangleGraph realScalarOps (Real.pi / 4) 4 true) 0).requiresGrad = true ∧
    (nodeAt (triangleGraph realScalarOps (Real.pi / 4) 4 true) 1).requiresGrad = false ∧
    (nodeAt (triangleGraph realScalarOps (Real.pi / 4) 4 true) 3).requiresGrad = true ∧
    (nodeAt (triangleGraph realScalarOps (Real.pi / 4) 4 true) 5).requiresGrad = true ∧
    (nodeAt (triangleGraph realScalarOps (Real.pi / 4) 4 true) 8).requiresGrad = true ∧
    (nodeAt (cell19Graph realScalarOps (Real.pi / 4)) 1).requiresGrad = true :=
  ⟨fun _ _ g op i j => lastNode_applyBin g op i j,
   fun _ _ S g op i => lastNode_applyUn S g op i,
   rfl, rfl, rfl, rfl, rfl, rfl⟩

/-- Cell 11: the hand-derived partial derivative of the triangle area
with respect to theta, (b ** 2 / 2) / cos(theta) ** 2. -/
noncomputable def our_custom_made_gradient (b theta : ℝ) : ℝ :=
  (b ^ 2 / 2) / Real.cos theta ^ 2

/-- The composed forward computation of cell 13 as a real function of
theta: a = (h * b) / 2 with c = b / cos(theta) and h = c * sin(theta). -/
noncomputable def triangle_area (b theta : ℝ) : ℝ :=
  (b / Real.cos theta * Real.sin theta * b) / 2

/-- The cell 13 graph with its arena spelled out node by node (used to
evaluate the backward sweep one step at a time). -/
noncomputable def triArena (b theta : ℝ) : Graph ℝ :=
  [⟨.scalar theta, true, none⟩,
   ⟨.scalar b, false, none⟩,
   ⟨.scalar (Real.cos theta), true, some (.un .cos 0)⟩,
   ⟨.scalar (b / Real.cos theta), true, some (.bin .div 1 2)⟩,
   ⟨.scalar (Real.sin theta), true, some (.un .sin 0)⟩,
   ⟨.scalar (b / Real.cos theta * Real.sin theta), true, some (.bin .mul 3 4)⟩,
   ⟨.scalar (b / Real.cos theta * Real.sin theta * b), true, some (.bin .mul 5 1)⟩,
   ⟨.scalar 2, false, none⟩,
   ⟨.scalar (b / Real.cos theta * Real.sin theta * b / 2), true, some (.bin .div 6 7)⟩]

/-- Seed gradient map of the cell 13 backward call. -/
noncomputable def triM0 : GradMap ℝ :=
  [none, none, none, none, none, none, none, none, some (.scalar 1)]

/-- Gradient map after visiting node 8 of the cell 13 graph. -/
noncomputable def triM8 : GradMap ℝ :=
  [none, none, none, none, none, none, some (.scalar (1 / 2)), none, some (.scalar 1)]

/-- Gradient map after visiting node 6 of the cell 13 graph. -/
noncomputable def triM6 (b : ℝ) : GradMap ℝ :=
  [none, none, none, none, none, some (.scalar (1 / 2 * b)), some (.scalar (1 / 2)),
   none, some (.scalar 1)]

/-- Gradient map after visiting node 5 of the cell 13 graph. -/
noncomputable def triM5 (b theta : ℝ) : GradMap ℝ :=
  [none, none, none, some (.scalar (1 / 2 * b * Real.sin theta)),
   some (.scalar (1 / 2 * b * (b / Real.cos theta))),
   some (.scalar (1 / 2 * b)), some (.scalar (1 / 2)), none, some (.scalar 1)]

/-- Gradient map after visiting node 4 of the cell 13 graph. -/
noncomputable def triM4 (b theta : ℝ) : GradMap ℝ :=
  [some (.scalar (Real.cos theta * (1 / 2 * b * (b / Real.cos theta)))), none, none,
   some (.scalar (1 / 2 * b * Real.sin theta)),
   some (.scalar (1 / 2 * b * (b / Real.cos theta))),
   some (.scalar (1 / 2 * b)), some (.scalar (1 / 2)), none, some (.scalar 1)]

/-- Gradient map after visiting node 3 of the cell 13 graph. -/
noncomputable def triM3 (b theta : ℝ) : GradMap ℝ :=
  [some (.scalar (Real.cos theta * (1 / 2 * b * (b / Real.cos theta)))), none,
   some (.scalar (-(b * (1 / 2 * b * Real.sin theta) / (Real.cos theta * Real.cos theta)))),
   some (.scalar (1 / 2 * b * Real.sin theta)),
   some (.scalar (1 / 2 * b * (b / Real.cos theta))),
   some (.scalar (1 / 2 * b)), some (.scalar (1 / 2)), none, some (.scalar 1)]

/-- Gradient map after visiting node 2 of the cell 13 graph; visiting
nodes 1 and 0 changes nothing further, so this is the final state. -/
noncomputable def triM2 (b theta : ℝ) : GradMap ℝ :=
  [some (.scalar (Real.cos theta * (1 / 2 * b * (b / Real.cos theta))
      + -Real.sin theta * -(b * (1 / 2 * b * Real.sin theta)
          / (Real.cos theta * Real.cos theta)))), none,
   some (.scalar (-(b * (1 / 2 * b * Real.sin theta) / (Real.cos theta * Real.cos theta)))),
   some (.scalar (1 / 2 * b * Real.sin theta)),
   some (.scalar (1 / 2 * b * (b / Real.cos theta))),
   some (.scalar (1 / 2 * b)), some (.scalar (1 / 2)), none, some (.scalar 1)]

set_option maxHeartbeats 1000000 in
/-- C9: for every b and theta with cos(theta) nonzero, the cell 13 root
payload is the composed forward computation a = (h * b) / 2, the
hand-derived closed form of cell 11 is the derivative of that
composition with respect to theta, the backward engine run on the
cell 13 graph accumulates exactly that closed form into theta, and at
b = 4, theta = pi / 4 the agreed value is 16. -/
theorem triangle_gradient_agreement (b theta : ℝ) (h : Real.cos theta ≠ 0) :
    (nodeAt (triangleGraph realScalarOps theta b true) 8).payload
      = .scalar (triangle_area b theta) ∧
    HasDerivAt (fun t => triangle_area b t) (our_custom_made_gradient b theta) theta ∧
    gradAt realScalarOps (triangleGraph realScalarOps theta b true) 8 0
      = some (.scalar (our_custom_made_gradient b theta)) ∧
    our_custom_made_gradient 4 (Real.pi / 4) = 16 := by
  have hs := Real.sin_sq_add_cos_sq theta
  refine ⟨rfl, ?_, ?_, ?_⟩
  · have h1 : HasDerivAt (fun t => b / Real.cos t)
        ((0 * Real.cos theta - b * -Real.sin theta) / Real.cos theta ^ 2) theta :=
      (hasDerivAt_const theta b).div (Real.hasDerivAt_cos theta) h
    have h2 := (h1.mul (Real.hasDerivAt_sin theta)).mul_const b
    have h3 := h2.div_const 2
    convert h3 using 1
    field_simp [our_custom_made_gradient]
    linear_combination (-2 * b ^ 2 * Real.cos theta ^ 2) * hs
  · have hG : triangleGraph realScalarOps theta b true = triArena b theta := rfl
    have s8 : processNode realScalarOps (triArena b theta) triM0 8 = triM8 := rfl
    have s7 : processNode realScalarOps (triArena b theta) triM8 7 = triM8 := rfl
    have s6 : processNode realScalarOps (triArena b theta) triM8 6 = triM6 b := rfl
    have s5 : processNode realScalarOps (triArena b theta) (triM6 b) 5 = triM5 b theta := rfl
    have s4 : processNode realScalarOps (triArena b theta) (triM5 b theta) 4
        = triM4 b theta := rfl
    have s3 : processNode realScalarOps (triArena b theta) (triM4 b theta) 3
        = triM3 b theta := rfl
    have s2 : processNode realScalarOps (triArena b theta) (triM3 b theta) 2
        = triM2 b theta := rfl
    have s1 : processNode realScalarOps (triArena b theta) (triM2 b theta) 1
        = triM2 b theta := rfl
    have s0 : processNode realScalarOps (triArena b theta) (triM2 b theta) 0
        = triM2 b theta := rfl
    have hloop : backLoop realScalarOps (triArena b theta) 8 triM0 = triM2 b theta := by
      calc backLoop realScalarOps (triArena b theta) 8 triM0
          = backLoop realScalarOps (triArena b theta) 7
              (processNode realScalarOps (triArena b theta) triM0 8) := rfl
        _ = backLoop realScalarOps (triArena b theta) 6
              (processNode realScalarOps (triArena b theta) triM8 7) := by
              rw [s8]; exact rfl
        _ = backLoop realScalarOps (triArena b theta) 5
              (processNode realScalarOps (triArena b theta) triM8 6) := by
              rw [s7]; exact rfl
        _ = backLoop realScalarOps (triArena b theta) 4
              (processNode realScalarOps (triArena b theta) (triM6 b) 5) := by
              rw [s6]; exact rfl
        _ = backLoop realScalarOps (triArena b theta) 3
              (processNode realScalarOps (triArena b theta) (triM5 b theta) 4) := by
              rw [s5]; exact rfl
        _ = backLoop realScalarOps (triArena b theta) 2
              (processNode realScalarOps (triArena b theta) (triM4 b theta) 3) := by
              rw [s4]; exact rfl
        _ = backLoop realScalarOps (triArena b theta) 1
              (processNode realScalarOps (triArena b theta) (triM3 b theta) 2) := by
              rw [s3]; exact rfl
        _ = backLoop realScalarOps (triArena b theta) 0
              (processNode realScalarOps (triArena b theta) (triM2 b theta) 1) := by
              rw [s2]; exact rfl
        _ = processNode realScalarOps (triArena b theta) (triM2 b theta) 0 := by
              rw [s1]; exact rfl
        _ = triM2 b theta := s0
    have hback : backward realScalarOps (triArena b theta) 8 = .ok (triM2 b theta) := by
      have h0 : backward realScalarOps (triArena b theta) 8
          = .ok (backLoop realScalarOps (triArena b theta) 8 triM0) := rfl
      rw [h0, hloop]
    have hE : Real.cos theta * (1 / 2 * b * (b / Real.cos theta))
        + -Real.sin theta * -(b * (1 / 2 * b * Real.sin theta)
            / (Real.cos theta * Real.cos theta))
        = our_custom_made_gradient b theta := by
      rw [our_custom_made_gradient]
      field_simp
      linear_combination (4 * Real.cos theta ^ 3 * b ^ 2) * hs
    have hfin : gradAt realScalarOps (triArena b theta) 8 0
        = some (.scalar (Real.cos theta * (1 / 2 * b * (b / Real.cos theta))
            + -Real.sin theta * -(b * (1 / 2 * b * Real.sin theta)
                / (Real.cos theta * Real.cos theta)))) := by
      show (match backward realScalarOps (triArena b theta) 8 with
            | .ok grads => gradient grads 0
            | .error _ => none) = _
      rw [hback]
      exact rfl
    rw [hG, hfin, hE]
  · rw [our_custom_made_gradient, Real.cos_pi_div_four]
    rw [div_pow, Real.sq_sqrt] <;> norm_num

/-- Witness for C9 at the notebook values b = 4, theta = pi / 4. -/
theorem triangle_gradient_agreement_witness :
    Real.cos (Real.pi / 4) ≠ 0 ∧
    HasDerivAt (fun t => triangle_area 4 t)
      (our_custom_made_gradient 4 (Real.pi / 4)) (Real.pi / 4) ∧
    gradAt realScalarOps (triangleGraph realScalarOps (Real.pi / 4) 4 true) 8 0
      = some (.scalar (our_custom_made_gradient 4 (Real.pi / 4))) ∧
    our_custom_made_gradient 4 (Real.pi / 4) = 16 := by
  have hc : Real.cos (Real.pi / 4) ≠ 0 := by
    rw [Real.cos_pi_div_four]; positivity
  exact ⟨hc, (triangle_gradient_agreement 4 (Real.pi / 4) hc).2.1,
    (triangle_gradient_agreement 4 (Real.pi / 4) hc).2.2.1,
    (triangle_gradient_agreement 4 (Real.pi / 4) hc).2.2.2⟩

/-- C6: calling backward on the cell 15 root a, none of whose ancestors
was ever flagged for gradient tracking, surfaces the untracked-root
error to the caller and is not recovered, so no gradient map is
produced and the subsequent gradient read yields nothing. -/
theorem untracked_root_backward_error :
    backward realScalarOps (triangleGraph realScalarOps (Real.pi / 4) 4 false) 8
      = .error .untrackedRoot ∧
    gradAt realScalarOps (triangleGraph realScalarOps (Real.pi / 4) 4 false) 8 0
      = none :=
  ⟨rfl, rfl⟩

/-! Tabular data handling of the notebook (cells 25, 27 and 29).
A pandas dataframe is modelled as a list of column names together with
rows of rational cells kept in column order. -/

/-- Modelled from the source (cell 27 context): a dataframe is an
ordered list of column names plus one list of cells per row, cells
aligned with the column list. -/
structure DataFrame where
  columns : List String
  rows : List (List ℚ)

/-- The column list evidence_matrix selects: the dataframe columns with
the pandas index artifact column removed when present, then the
response column removed (cell 27). -/
def keptColumns (df : DataFrame) : List String :=
  let columns := df.columns
  let columns := if "Unnamed: 0" ∈ columns then columns.erase "Unnamed: 0" else columns
  columns.erase "response"

/-- Selection dataframe[columns].values: every row restricted to the
named columns, in the order of the given column list. -/
def selectColumns (df : DataFrame) (cols : List String) : List (List ℚ) :=
  df.rows.map (fun r => cols.map (fun c => r.getD (List.indexOf c df.columns) 0))

/-- Cell 27: evidence_matrix gets the evidence matrix (as a tensor)
from the dataframe: all columns except the response (and except the
pandas index artifact), one matrix row per dataframe row. -/
def evidence_matrix (df : DataFrame) : Tensor ℚ :=
  .matrix (selectColumns df (keptColumns df))

/-- Cell 27: response_vector gets the response column as a tensor, one
entry per dataframe row. -/
def response_vector (df : DataFrame) : Tensor ℚ :=
  .vector (df.rows.map (fun r => r.getD (List.indexOf "response" df.columns) 0))

/-- Number of rows of a tensor (entries of a vector, rows of a matrix). -/
def tensorRows {R : Type} : Tensor R → ℕ
  | .scalar _ => 1
  | .vector xs => xs.length
  | .matrix xss => xss.length

/-- C7: for every dataframe with a response column (and no duplicate
column names), evidence_matrix returns one matrix row per dataframe
row, its columns being exactly the dataframe columns minus the
response column and minus the pandas index artifact, in original
order; response_vector returns one entry per dataframe row; and the
two results have the same number of rows. -/
theorem evidence_response_shape (df : DataFrame)
    (_h1 : "response" ∈ df.columns) (h2 : df.columns.Nodup) :
    tensorRows (evidence_matrix df) = df.rows.length ∧
    tensorRows (response_vector df) = df.rows.length ∧
    keptColumns df
      = df.columns.filter (fun c => c != "Unnamed: 0" && c != "response") ∧
    evidence_matrix df
      = .matrix (df.rows.map (fun r =>
          (keptColumns df).map (fun c => r.getD (List.indexOf c df.columns) 0))) ∧
    tensorRows (evidence_matrix df) = tensorRows (response_vector df) := by
  refine ⟨?_, ?_, ?_, rfl, ?_⟩
  · simp [evidence_matrix, selectColumns, tensorRows]
  · simp [response_vector, tensorRows]
  · unfold keptColumns
    by_cases hm : "Unnamed: 0" ∈ df.columns
    · simp only [hm, if_true]
      rw [(h2.erase _).erase_eq_filter, h2.erase_eq_filter, List.filter_filter]
      exact List.filter_congr (fun a _ => by rw [Bool.and_comm])
    · simp only [hm, if_false]
      rw [h2.erase_eq_filter]
      refine (List.filter_congr (fun a ha => ?_)).symm
      have hu : a != "Unnamed: 0" := by
        rcases eq_or_ne a "Unnamed: 0" with rfl | hne
        · exact absurd ha hm
        · simpa using hne
      rw [hu]; simp
  · simp [evidence_matrix, response_vector, selectColumns, tensorRows]

/-- A two-row dataframe shaped like the simple training data. -/
def sampleFrame : DataFrame :=
  ⟨["offset", "height", "mass", "response"],
   [[1, 6, 150, 0], [1, 5, 120, 1]]⟩

/-- Witness for C7 on a concrete two-row dataframe. -/
theorem evidence_response_shape_witness :
    "response" ∈ sampleFrame.columns ∧
    sampleFrame.columns.Nodup ∧
    tensorRows (evidence_matrix sampleFrame) = 2 ∧
    tensorRows (response_vector sampleFrame) = 2 ∧
    keptColumns sampleFrame = ["offset", "height", "mass"] := by
  have h1 : "response" ∈ sampleFrame.columns := by simp [sampleFrame]
  have h2 : sampleFrame.columns.Nodup := by simp [sampleFrame]
  refine ⟨h1, h2, (evidence_response_shape sampleFrame h1 h2).1,
    (evidence_response_shape sampleFrame h1 h2).2.1, ?_⟩
  rw [(evidence_response_shape sampleFrame h1 h2).2.2.1]
  rfl

/-- Cells 29 and 32: the arguments the train-data accuracy printout
passes to evaluate — the evidence matrix of the training dataframe
paired with the response vector of the test dataframe. -/
def cell29_evaluate_args (train test : DataFrame) : Tensor ℚ × Tensor ℚ :=
  (evidence_matrix train, response_vector test)

/-- C10: the train-data accuracy printout pairs the evidence matrix of
the training dataframe with the response vector of the test dataframe,
so whenever the two dataframes have different row counts (200 against
100 in the notebook) the pair passed to evaluate has unequal numbers of
rows, violating the one-label-per-row pairing. -/
theorem evaluate_arguments_mismatch (train test : DataFrame)
    (h : train.rows.length ≠ test.rows.length) :
    tensorRows (cell29_evaluate_args train test).1 = train.rows.length ∧
    tensorRows (cell29_evaluate_args train test).2 = test.rows.length ∧
    tensorRows (cell29_evaluate_args train test).1
      ≠ tensorRows (cell29_evaluate_args train test).2 := by
  refine ⟨?_, ?_, ?_⟩
  · simp [cell29_evaluate_args, evidence_matrix, selectColumns, tensorRows]
  · simp [cell29_evaluate_args, response_vector, tensorRows]
  · simpa [cell29_evaluate_args, evidence_matrix, response_vector,
      selectColumns, tensorRows] using h

/-- A 200-row dataframe shaped like the simple training data. -/
def trainLike : DataFrame :=
  ⟨["offset", "height", "mass", "response"], List.replicate 200 [1, 6, 150, 0]⟩

/-- A 100-row dataframe shaped like the simple test data. -/
def testLike : DataFrame :=
  ⟨["offset", "height", "mass", "response"], List.replicate 100 [1, 5, 120, 1]⟩

set_option maxRecDepth 4000 in
/-- Witness for C10 at the notebook row counts 200 and 100. -/
theorem evaluate_arguments_mismatch_witness :
    trainLike.rows.length ≠ testLike.rows.length ∧
    tensorRows (cell29_evaluate_args trainLike testLike).1
      ≠ tensorRows (cell29_evaluate_args trainLike testLike).2 := by
  have h : trainLike.rows.length ≠ testLike.rows.length := by
    decide
  exact ⟨h, (evaluate_arguments_mismatch trainLike testLike h).2.2⟩

/-! Simple data generation (cell 25).  The Python randint calls are
modelled by an explicit stream s of raw draws together with a position
counter, and the unbounded retry loop of create_datum_with_response is
modelled with an explicit fuel bound: a run that returns within the
fuel returns some, a run that exhausts it returns none. -/

/-- The skeleton of one generated record: the constant offset feature,
the height and mass features, and the 0/1 response label. -/
structure Datum where
  offset : ℚ
  height : ℚ
  mass : ℚ
  response : ℚ
deriving DecidableEq, Repr

/-- Modelled from the source: randint(lo, hi) drawing the raw value raw
from the stream, mapped into the inclusive range. -/
def randint (lo hi raw : ℕ) : ℕ := lo + raw % (hi - lo + 1)

/-- Cell 25: create_datum draws height = randint(40,70)/10 and
mass = randint(100,300), computes the underweight margin
40 * height - mass - 120, and labels the record 1 exactly when the
margin is positive (the overweight margin is computed but unused). -/
def create_datum (s : ℕ → ℕ) (pos : ℕ) : Datum × ℕ :=
  let height : ℚ := (randint 40 70 (s pos) : ℚ) / 10
  let mass : ℚ := (randint 100 300 (s (pos + 1)) : ℚ)
  let underweight := 40 * height - mass - 120
  let response : ℚ := if underweight > 0 then 1 else 0
  (⟨1, height, mass, response⟩, pos + 2)

/-- The retry loop of create_datum_with_response: while the freshly
generated response equals the argument r, generate again; fuel bounds
the number of retries. -/
def cdwr_go (s : ℕ → ℕ) (r : ℚ) : ℕ → Datum → ℕ → Option (Datum × ℕ)
  | 0, d, pos => if d.response = r then none else some (d, pos)
  | fuel + 1, d, pos =>
    if d.response = r then
      cdwr_go s r fuel (create_datum s pos).1 (create_datum s pos).2
    else some (d, pos)

/-- Cell 25: create_datum_with_response generates a first datum and
then loops while its response equals r. -/
def create_datum_with_response (s : ℕ → ℕ) (fuel : ℕ) (r : ℚ) (pos : ℕ) :
    Option (Datum × ℕ) :=
  cdwr_go s r fuel (create_datum s pos).1 (create_datum s pos).2

/-- Cell 25: the loop body of create_simple_data, run k times; each
iteration appends create_datum_with_response(0) and then
create_datum_with_response(1). -/
def csd_loop (s : ℕ → ℕ) (fuel : ℕ) : ℕ → ℕ → Option (List Datum × ℕ)
  | 0, pos => some ([], pos)
  | k + 1, pos =>
    match create_datum_with_response s fuel 0 pos with
    | none => none
    | some (d0, p1) =>
      match create_datum_with_response s fuel 1 p1 with
      | none => none
      | some (d1, p2) =>
        match csd_loop s fuel k p2 with
        | none => none
        | some (rest, p3) => some (d0 :: d1 :: rest, p3)

/-- Cell 25: create_simple_data(how_many) runs the loop body
how_many // 2 times and collects the generated records in order. -/
def create_simple_data (s : ℕ → ℕ) (fuel : ℕ) (how_many : ℕ) : Option (List Datum) :=
  (csd_loop s fuel (how_many / 2) 0).map (fun x => x.1)

/-- A datum as create_datum produces it: the response is 1 exactly when
the underweight margin is positive, 0 otherwise. -/
def GoodDatum (d : Datum) : Prop :=
  d.response = if 40 * d.height - d.mass - 120 > 0 then 1 else 0

theorem create_datum_good (s : ℕ → ℕ) (pos : ℕ) :
    GoodDatum (create_datum s pos).1 := rfl

theorem GoodDatum.cases {d : Datum} (h : GoodDatum d) :
    d.response = 1 ∨ d.response = 0 := by
  rw [GoodDatum] at h
  split at h
  · exact Or.inl h
  · exact Or.inr h

theorem GoodDatum.response_iff {d : Datum} (h : GoodDatum d) :
    d.response = 1 ↔ 40 * d.height - d.mass - 120 > 0 := by
  rw [GoodDatum] at h
  by_cases hc : 40 * d.height - d.mass - 120 > 0
  · rw [if_pos hc] at h
    simp [h, hc]
  · rw [if_neg hc] at h
    rw [h]
    norm_num
    linarith

theorem cdwr_go_spec (s : ℕ → ℕ) (r : ℚ) :
    ∀ (fuel : ℕ) (d : Datum) (pos : ℕ) (out : Datum × ℕ), GoodDatum d →
      cdwr_go s r fuel d pos = some out →
      GoodDatum out.1 ∧ out.1.response ≠ r := by
  intro fuel
  induction fuel with
  | zero =>
    intro d pos out hd h
    rw [cdwr_go] at h
    split at h
    · exact absurd h (by simp)
    · obtain rfl : (d, pos) = out := by simpa using h
      exact ⟨hd, by assumption⟩
  | succ fuel ih =>
    intro d pos out hd h
    rw [cdwr_go] at h
    split at h
    · exact ih _ _ _ (create_datum_good s pos) h
    · obtain rfl : (d, pos) = out := by simpa using h
      exact ⟨hd, by assumption⟩

theorem cdwr_spec (s : ℕ → ℕ) (fuel : ℕ) (r : ℚ) (pos : ℕ) (out : Datum × ℕ)
    (h : create_datum_with_response s fuel r pos = some out) :
    GoodDatum out.1 ∧ out.1.response ≠ r :=
  cdwr_go_spec s r fuel _ _ out (create_datum_good s pos) h

theorem csd_loop_spec (s : ℕ → ℕ) (fuel : ℕ) :
    ∀ (k pos : ℕ) (lst : List Datum) (p' : ℕ),
      csd_loop s fuel k pos = some (lst, p') →
      lst.length = 2 * k ∧
      (lst.filter (fun d => d.response = 1)).length = k ∧
      (lst.filter (fun d => d.response = 0)).length = k ∧
      ∀ d ∈ lst, GoodDatum d := by
  intro k
  induction k with
  | zero =>
    intro pos lst p' h
    obtain ⟨rfl, rfl⟩ : lst = [] ∧ pos = p' := by
      rw [csd_loop] at h; simpa using h
    simp
  | succ k ih =>
    intro pos lst p' h
    rw [csd_loop] at h
    cases hx0 : create_datum_with_response s fuel 0 pos with
    | none => rw [hx0] at h; simp at h
    | some v0 =>
      obtain ⟨d0, p1⟩ := v0
      rw [hx0] at h
      dsimp only at h
      cases hx1 : create_datum_with_response s fuel 1 p1 with
      | none => rw [hx1] at h; simp at h
      | some v1 =>
        obtain ⟨d1, p2⟩ := v1
        rw [hx1] at h
        dsimp only at h
        cases hx2 : csd_loop s fuel k p2 with
        | none => rw [hx2] at h; simp at h
        | some v2 =>
          obtain ⟨rest, p3⟩ := v2
          rw [hx2] at h
          dsimp only at h
          obtain ⟨rfl, rfl⟩ : d0 :: d1 :: rest = lst ∧ p3 = p' := by simpa using h
          obtain ⟨hg0, hn0⟩ := cdwr_spec s fuel 0 pos (d0, p1) hx0
          obtain ⟨hg1, hn1⟩ := cdwr_spec s fuel 1 p1 (d1, p2) hx1
          obtain ⟨hlen, hc1, hc0, hgood⟩ := ih p2 rest p3 hx2
          have hr0 : d0.response = 1 := by
            rcases hg0.cases with h1 | h0
            · exact h1
            · exact absurd h0 hn0
          have hr1 : d1.response = 0 := by
            rcases hg1.cases with h1 | h0
            · exact absurd h1 hn1
            · exact h0
          refine ⟨?_, ?_, ?_, ?_⟩
          · simp [hlen]; omega
          · simp [List.filter_cons, hr0, hr1, hc1]
          · simp [List.filter_cons, hr0, hr1, hc0]
          · intro d hd
            rcases hd with _ | ⟨_, hd⟩
            · exact hg0
            · rcases hd with _ | ⟨_, hd⟩
              · exact hg1
              · exact hgood d hd

set_option maxHeartbeats 1000000 in
/-- C8: whenever create_simple_data(n) returns for even n, it returns
n records, exactly n / 2 with response 1 and n / 2 with response 0,
every record labelled 1 exactly when 40 * height - mass - 120 > 0; and
create_datum_with_response(r) loops while the fresh response equals r,
so whatever it returns has a response different from its argument (the
two appends per iteration therefore yield one record of each class). -/
theorem create_simple_data_balanced (s : ℕ → ℕ) (fuel n : ℕ)
    (hn : n % 2 = 0) (_hpos : 0 < n) (df : List Datum)
    (h : create_simple_data s fuel n = some df) :
    df.length = n ∧
    (df.filter (fun d => d.response = 1)).length = n / 2 ∧
    (df.filter (fun d => d.response = 0)).length = n / 2 ∧
    (∀ d ∈ df, (d.response = 1 ↔ 40 * d.height - d.mass - 120 > 0)) ∧
    (∀ (r : ℚ) (pos : ℕ) (out : Datum × ℕ),
        create_datum_with_response s fuel r pos = some out →
        out.1.response ≠ r) := by
  rw [create_simple_data] at h
  cases hx : csd_loop s fuel (n / 2) 0 with
  | none => rw [hx] at h; simp at h
  | some v =>
    obtain ⟨lst, p'⟩ := v
    rw [hx] at h
    obtain rfl : lst = df := by simpa using h
    obtain ⟨hlen, hc1, hc0, hgood⟩ := csd_loop_spec s fuel (n / 2) 0 lst p' hx
    refine ⟨by omega, hc1, hc0, ?_, ?_⟩
    · intro d hd
      exact (hgood d hd).response_iff
    · intro r pos out hout
      exact (cdwr_spec s fuel r pos out hout).2

/-- The raw random stream used by the C8 witness: the first draw gives
the maximal height 7.0 and every later draw gives the minimal values,
so the first generated record is underweight (response 1) and all
later ones are not (response 0). -/
def witnessStream : ℕ → ℕ := fun p => if p = 0 then 30 else 0

/-- The two records the witness run generates. -/
def witnessData : List Datum := [⟨1, 7, 100, 1⟩, ⟨1, 4, 100, 0⟩]

/-- Witness for C8: a concrete run with n = 2 and no retries needed. -/
theorem create_simple_data_balanced_witness :
    (2 : ℕ) % 2 = 0 ∧ (0 : ℕ) < 2 ∧
    create_simple_data witnessStream 0 2 = some witnessData ∧
    witnessData.length = 2 ∧
    (witnessData.filter (fun d => d.response = 1)).length = 1 ∧
    (witnessData.filter (fun d => d.response = 0)).length = 1 := by
  have h : create_simple_data witnessStream 0 2 = some witnessData := by
    norm_num [create_simple_data, csd_loop, create_datum_with_response, cdwr_go,
      create_datum, randint, witnessStream, witnessData]
  refine ⟨rfl, by norm_num, h, ?_, ?_, ?_⟩
  · exact (create_simple_data_balanced witnessStream 0 2 rfl (by norm_num)
      witnessData h).1
  · exact (create_simple_data_balanced witnessStream 0 2 rfl (by norm_num)
      witnessData h).2.1
  · exact (create_simple_data_balanced witnessStream 0 2 rfl (by norm_num)
      witnessData h).2.2.1

end Autograd


